import Mathlib

/-!
Shallow embedding of the WhatsApp lead-triage service (Python, FastAPI) in
Lean 4, together with theorems checking the natural-language specification
against the code.

Modelling conventions:
- SQLAlchemy entities (`src/infrastructure/database/models.py`) become Lean
  structures; nullable columns become `Option` fields; enum-valued columns
  are stored as plain `String`s, exactly as the code stores them
  (`native_enum=False`).
- Python truthiness on optional strings (`if lead.name:`) is modelled by
  `pyTruthyStr`: `None` and `""` are falsy.
- Timestamps are seconds as `Int`; `datetime.now(UTC) - t > timedelta(minutes=m)`
  becomes `now - t > m * 60`.
- Floats that only ever get compared or divided (AI confidence, rate-limiter
  clock values, conversion rate) are modelled as `ℚ`.
-/

/-- Python `str.split(sep)` for a one-character separator, over the
code-point list of the string. -/
def splitOnChar (sep : Char) : List Char → List (List Char)
  | [] => [[]]
  | c :: rest =>
      let r := splitOnChar sep rest
      if c = sep then [] :: r
      else
        match r with
        | [] => [[c]]
        | h :: t => (c :: h) :: t

/-- Python `str.strip()`: drop whitespace from both ends. -/
def pyStrip (s : List Char) : List Char :=
  ((s.dropWhile Char.isWhitespace).reverse.dropWhile Char.isWhitespace).reverse

/-- Python truthiness of an `Optional[str]`: `None` and `""` are falsy. -/
def pyTruthyStr : Option String → Bool
  | none => false
  | some s => s != ""

/-- Subset of `Settings` (src/core/config.py) used by the claims, with the
field defaults taken from the `Field(default=...)` declarations. -/
structure Settings where
  covered_cities : String
  score_threshold_hot : Int
  score_threshold_warm : Int
  session_timeout_minutes : Int
  max_messages_without_progress : Nat
  whatsapp_access_token : String
  rate_limit_per_minute : Nat
deriving DecidableEq

/-- `Settings.covered_cities_list` property: split the csv string on `","`
and strip each entry (`[city.strip() for city in self.covered_cities.split(",")]`). -/
def Settings.covered_cities_list (s : Settings) : List String :=
  (splitOnChar ',' s.covered_cities.data).map (fun l => String.mk (pyStrip l))

/-- The defaults declared in `src/core/config.py`. -/
def defaultSettings : Settings where
  covered_cities := "Juiz de Fora, Rio de Janeiro, São Paulo"
  score_threshold_hot := 70
  score_threshold_warm := 40
  session_timeout_minutes := 30
  max_messages_without_progress := 10
  whatsapp_access_token := ""
  rate_limit_per_minute := 60

/-- The `Lead` entity (src/infrastructure/database/models.py). Enum-valued
columns (`status`, `classification`) are stored as their string values. -/
structure Lead where
  id : String
  phone_number : String
  name : Option String
  email : Option String
  city : Option String
  state : Option String
  prosthesis_type : Option String
  urgency_level : Option String
  budget_range : Option String
  has_insurance : Option Bool
  classification : Option String
  score : Int
  status : String
  routed_to : Option String
  source : Option String
  campaign_id : Option String
  utm_source : Option String
  utm_medium : Option String
  utm_campaign : Option String
  first_contact_at : Option Int
  qualified_at : Option Int
  last_message_at : Option Int
deriving DecidableEq

/-- A `Lead` with every nullable column NULL and the column defaults
(`score=0`, `status="novo"`) from the model declaration. -/
def emptyLead : Lead where
  id := "lead-1"
  phone_number := "5511999887766"
  name := none
  email := none
  city := none
  state := none
  prosthesis_type := none
  urgency_level := none
  budget_range := none
  has_insurance := none
  classification := none
  score := 0
  status := "novo"
  routed_to := none
  source := none
  campaign_id := none
  utm_source := none
  utm_medium := none
  utm_campaign := none
  first_contact_at := none
  qualified_at := none
  last_message_at := none

/-- The `Conversation` entity (src/infrastructure/database/models.py). -/
structure Conversation where
  id : String
  lead_id : String
  status : String
  started_at : Int
  ended_at : Option Int
  last_activity_at : Int
  total_messages : Nat
  ai_messages : Nat
  user_messages : Nat
  average_response_time : Option Int
  data_collected_complete : Bool
  transferred_to_human : Bool
deriving DecidableEq

/-- A fresh `Conversation` with the column defaults (`status="ativa"`,
counters 0, flags false, `average_response_time` NULL). -/
def emptyConversation : Conversation where
  id := "conv-1"
  lead_id := "lead-1"
  status := "ativa"
  started_at := 0
  ended_at := none
  last_activity_at := 0
  total_messages := 0
  ai_messages := 0
  user_messages := 0
  average_response_time := none
  data_collected_complete := false
  transferred_to_human := false

/-- The `urgency_scores` dict lookup with default 0 in
`LeadClassifier.classify_lead`. -/
def urgency_scores_get (u : String) : Int :=
  if u = "emergencia" then 30
  else if u = "alta" then 25
  else if u = "media" then 15
  else if u = "baixa" then 5
  else 0

/-- The running `score` accumulated by `LeadClassifier.classify_lead`
(src/domain/services/lead_classifier.py) before the final clamp: data
collected, urgency, financial situation, engagement, response-time bonus,
and the two penalties.  Each `let` mirrors one `if` block of the code. -/
def classify_score_raw (lead : Lead) (conversation : Conversation) (s : Settings) : Int :=
  let score : Int := 0
  -- 1. collected data: `if lead.name:`
  let score := if pyTruthyStr lead.name then score + 10 else score
  -- `if lead.city:` then covered-cities membership
  let score :=
    match lead.city with
    | none => score
    | some c =>
      if c = "" then score
      else if c ∈ s.covered_cities_list then score + 15 else score - 30
  let score := if pyTruthyStr lead.prosthesis_type then score + 15 else score
  -- 2. urgency: `if lead.urgency_level:` then dict lookup
  let score :=
    match lead.urgency_level with
    | none => score
    | some u => if u = "" then score else score + urgency_scores_get u
  -- 3. financial situation: `if lead.has_insurance:` (None and False falsy)
  let score := if lead.has_insurance = some true then score + 15 else score
  let score := if pyTruthyStr lead.budget_range then score + 10 else score
  -- 4. engagement
  let score :=
    if conversation.user_messages ≥ 3 then score + 10
    else if conversation.user_messages ≥ 2 then score + 5
    else score
  -- 5. response-time bonus: `if avg and avg < 120:` (0 is falsy)
  let score :=
    match conversation.average_response_time with
    | none => score
    | some t => if t ≠ 0 ∧ t < 120 then score + 5 else score
  -- penalties
  let score :=
    if conversation.total_messages > 10 ∧ ¬conversation.data_collected_complete
    then score - 15 else score
  let score := if conversation.total_messages > 20 then score - 10 else score
  score

/-- Result of `LeadClassifier.classify_lead` (the `reasons` list is not
modelled; no claim depends on it). -/
structure ClassifyResult where
  classification : String
  score : Int
deriving DecidableEq

/-- `LeadClassifier.classify_lead`: clamp the raw score to [0, 100] with
`max(0, min(100, score))`, then classify by the configured thresholds. -/
def classify_lead (lead : Lead) (conversation : Conversation) (s : Settings) :
    ClassifyResult :=
  let score := max 0 (min 100 (classify_score_raw lead conversation s))
  let classification :=
    if score ≥ s.score_threshold_hot then "quente"
    else if score ≥ s.score_threshold_warm then "morno"
    else if score > 0 then "frio"
    else "nao_qualificado"
  { classification := classification, score := score }

/-- A lead whose only set field is a city (claim C1's particular case). -/
def leadOnlyCity (c : String) : Lead := { emptyLead with city := some c }

/-- `LeadClassifier.determine_routing`: first matching rule wins. -/
def determine_routing (lead : Lead) : String :=
  if lead.urgency_level = some "emergencia" then "ATENDIMENTO_URGENTE"
  else if lead.classification = some "quente" then
    if lead.urgency_level = some "alta" ∨ lead.urgency_level = some "media"
    then "VENDAS_PRIORIDADE" else "VENDAS"
  else if lead.classification = some "morno" then "AGENDAMENTO"
  else if lead.classification = some "frio" then "NUTRICAO"
  else "DESCARTE"

/-- `LeadClassifier._is_data_complete`: name, city and prosthesis_type are
all `is not None` (an empty string still counts as present). -/
def lead_is_data_complete (lead : Lead) : Bool :=
  lead.name.isSome && lead.city.isSome && lead.prosthesis_type.isSome

/-- `LeadClassifier.should_transfer_to_human`: the five early-return
criteria, in source order. -/
def should_transfer_to_human (lead : Lead) (conversation : Conversation)
    (ai_confidence : ℚ) : Bool :=
  if lead.urgency_level = some "emergencia" then true
  else if lead.classification = some "quente" then true
  else if lead_is_data_complete lead ∧ conversation.user_messages ≥ 3 then true
  else if ai_confidence < 1/2 then true
  else if conversation.total_messages > 15 ∧ ¬conversation.data_collected_complete then true
  else false

/-- The `extracted_data` object of the AI response contract
(src/api/schemas/ai_response.py shape used by the orchestrator). -/
structure ExtractedData where
  nome : Option String := none
  cidade : Option String := none
  estado : Option String := none
  tipo_protese : Option String := none
  urgencia : Option String := none
  possui_convenio : Option Bool := none
deriving DecidableEq

/-- `MessageProcessor._update_lead_with_extracted_data`: fill-if-unset for
name/city/state/prosthesis_type (Python truthiness), always overwrite
urgency when supplied (and truthy), fill has_insurance only when the lead
field `is None`.  The source is a sequence of independent `if` statements,
each assigning one distinct Lead column and whose condition reads only
that same (still unassigned) column plus the extraction, so the sequence
is rendered as one simultaneous record update. -/
def update_lead_with_extracted_data (lead : Lead) (extracted : ExtractedData) : Lead :=
  { lead with
    name :=
      if pyTruthyStr extracted.nome && !(pyTruthyStr lead.name)
      then extracted.nome else lead.name
    city :=
      if pyTruthyStr extracted.cidade && !(pyTruthyStr lead.city)
      then extracted.cidade else lead.city
    state :=
      if pyTruthyStr extracted.estado && !(pyTruthyStr lead.state)
      then extracted.estado else lead.state
    prosthesis_type :=
      if pyTruthyStr extracted.tipo_protese && !(pyTruthyStr lead.prosthesis_type)
      then extracted.tipo_protese else lead.prosthesis_type
    urgency_level :=
      if pyTruthyStr extracted.urgencia then extracted.urgencia else lead.urgency_level
    has_insurance :=
      match extracted.possui_convenio, lead.has_insurance with
      | some b, none => some b
      | _, _ => lead.has_insurance }

/-- Python `str.split(sep)` for a nonempty separator, fuelled structural
recursion over the code-point list (fuel bounds the number of consumed
characters, so `length + 1` always suffices). -/
def pySplitAux (sep : List Char) : Nat → List Char → List Char → List (List Char)
  | 0, s, acc => [acc.reverse ++ s]
  | fuel + 1, s, acc =>
    match s with
    | [] => [acc.reverse]
    | c :: rest =>
      if sep.isPrefixOf (c :: rest) then
        acc.reverse :: pySplitAux sep fuel (List.drop (sep.length - 1) rest) []
      else
        pySplitAux sep fuel rest (c :: acc)

/-- Python `s.split(sep)` on strings (nonempty separator). -/
def pySplit (sep : String) (s : String) : List String :=
  (pySplitAux sep.data (s.data.length + 1) s.data []).map String.mk

/-- `verify_whatsapp_signature` (src/core/security.py).  The first argument
models `hmac.new(app_secret, body, sha256).hexdigest()` — the lowercase-hex
HMAC-SHA256 digest of the raw body under the configured app secret; the
HMAC primitive itself is an external library call and is left abstract.
Returns `true` for an accepted request; every raised
`InvalidWebhookSignatureError` becomes `false`. -/
def verify_whatsapp_signature (expected_signature : String)
    (signature_header : Option String) : Bool :=
  match signature_header with
  | none => false
  | some h =>
    -- `if not signature_header:` also rejects an empty header value
    if h = "" then false
    else
      -- `signature_header.split("sha256=")[1]`, IndexError rejects
      match (pySplit "sha256=" h).get? 1 with
      | none => false
      | some provided =>
        -- `hmac.compare_digest(provided_signature, expected_signature)`
        provided == expected_signature

/-- ASCII lowercase of one character. -/
def charLower (c : Char) : Char :=
  if 'A' ≤ c ∧ c ≤ 'Z' then Char.ofNat (c.toNat + 32) else c

/-- ASCII lowercase of a string. -/
def strLower (s : String) : String := String.mk (s.data.map charLower)

/-- Case-insensitive comparison of hex strings, as claim C4 words it. -/
def hexEqCaseInsensitive (a b : String) : Bool := strLower a == strLower b

/-- A character c of the lowercase hex alphabet. -/
def isLowerHexChar (c : Char) : Bool :=
  ('0' ≤ c ∧ c ≤ '9') ∨ ('a' ≤ c ∧ c ≤ 'f')

/-- A lowercase hex string, the shape of every `hexdigest()` output. -/
def isLowerHex (s : String) : Bool := s.data.all isLowerHexChar

/-- `WhatsAppClient.send_text_message` (src/infrastructure/messaging/whatsapp_client.py),
reduced to its text handling: `none` models the early `return None` on
empty/whitespace-only text (nothing is sent), `some t` models an HTTP send
whose body text is `t`. -/
def send_text_message (message : String) : Option String :=
  if message = "" ∨ (pyStrip message.data).length = 0 then none
  else if message.length > 4096 then
    some (String.mk (message.data.take 4090) ++ "...")
  else some message

/-- Python 3 `round(x, 2)` on an exact rational: banker's rounding
(round-half-to-even) at two decimal places. -/
def roundHalfEven (x : ℚ) : ℤ :=
  let f := ⌊x⌋
  let r := x - f
  if r < 1/2 then f
  else if 1/2 < r then f + 1
  else if f % 2 = 0 then f else f + 1

/-- Round to 2 decimal places, Python `round(x, 2)`. -/
def pyRound2 (x : ℚ) : ℚ := (roundHalfEven (x * 100) : ℚ) / 100

/-- The conversion-rate computation of `get_lead_stats`
(src/api/routes/leads.py): `(qualified / total * 100) if total > 0 else 0`,
then `round(_, 2)` when building the `LeadStats` response. -/
def get_lead_stats_conversion_rate (qualified total : Nat) : ℚ :=
  let conversion_rate : ℚ :=
    if total > 0 then (qualified : ℚ) / (total : ℚ) * 100 else 0
  pyRound2 conversion_rate

/-- The pruning step shared by `RateLimiter.is_allowed` and the per-IP
middleware: keep only timestamps still inside the window. -/
def rate_limiter_prune (window_seconds current_time : ℚ) (ts : List ℚ) : List ℚ :=
  ts.filter (fun t => current_time - t < window_seconds)

/-- `RateLimiter.is_allowed` (src/core/security.py) for one identifier:
takes the identifier's stored timestamp list (`none` when the key is
absent), returns the decision and the list stored back into
`self.requests[identifier]`. -/
def rate_limiter_is_allowed (current_time : ℚ) (max_requests : Nat)
    (window_seconds : ℚ) (stored : Option (List ℚ)) : Bool × List ℚ :=
  let ts :=
    match stored with
    | some l => rate_limiter_prune window_seconds current_time l
    | none => []
  if max_requests ≤ ts.length then (false, ts)
  else (true, ts ++ [current_time])

/-- The `simple_rate_limiter` middleware (src/api/main.py) for one client
IP on a non-webhook path: same sliding-window shape with a fixed 60-second
window and the configured per-minute limit; `false` means the 429 response
is returned (and no timestamp is recorded). -/
def simple_rate_limiter_check (s : Settings) (current_time : ℚ)
    (stored : Option (List ℚ)) : Bool × List ℚ :=
  let ts :=
    match stored with
    | some l => l.filter (fun t => current_time - t < 60)
    | none => []
  if s.rate_limit_per_minute ≤ ts.length then (false, ts)
  else (true, ts ++ [current_time])

/-- Python `phone[-k:]`: for `k = 0` this is `phone[0:]`, the whole string;
for `k > 0` it is the last `min(k, len)` characters. -/
def pyLastSlice (phone : String) (k : Nat) : String :=
  if k = 0 then phone else String.mk (phone.data.drop (phone.length - k))

/-- `mask_phone_number` (src/core/security.py). -/
def mask_phone_number (phone : String) (show_last_digits : Nat) : String :=
  if phone.length ≤ show_last_digits then
    String.mk (List.replicate phone.length '*')
  else
    String.mk (List.replicate (phone.length - show_last_digits) '*') ++
      pyLastSlice phone show_last_digits

/-- The concrete lead of claim C2: every profile field set, urgency
emergencia, insured, budget mentioned. -/
def c2_lead : Lead :=
  { emptyLead with
    name := some "Maria"
    city := some "Juiz de Fora"
    prosthesis_type := some "protese total"
    urgency_level := some "emergencia"
    has_insurance := some true
    budget_range := some "ate 5000" }

/-- The concrete conversation of claim C2: 3 user messages, 90s average
response time, few enough total messages that no penalty applies. -/
def c2_conversation : Conversation :=
  { emptyConversation with
    total_messages := 6
    user_messages := 3
    average_response_time := some 90 }

/-- C1: for every Lead and Conversation, `classify_lead` returns a score
clamped to [0, 100] and a classification determined by the configured
thresholds (score ≥ hot → quente, else ≥ warm → morno, else > 0 → frio,
else nao_qualificado); and under the default settings (thresholds 70/40) a
lead whose only set field is a city outside the covered-cities list gets
score 0 and classification nao_qualificado. -/
theorem c1_classify_lead_clamp_thresholds_uncovered_city
    (lead : Lead) (conversation : Conversation) (s : Settings) (c : String)
    (hc_ne : c ≠ "") (hc_not : c ∉ defaultSettings.covered_cities_list) :
    (0 ≤ (classify_lead lead conversation s).score ∧
      (classify_lead lead conversation s).score ≤ 100) ∧
    ((classify_lead lead conversation s).classification =
      if (classify_lead lead conversation s).score ≥ s.score_threshold_hot then "quente"
      else if (classify_lead lead conversation s).score ≥ s.score_threshold_warm then "morno"
      else if (classify_lead lead conversation s).score > 0 then "frio"
      else "nao_qualificado") ∧
    classify_lead (leadOnlyCity c) emptyConversation defaultSettings =
      { classification := "nao_qualificado", score := 0 } := by
  refine ⟨?_, rfl, ?_⟩
  · show 0 ≤ max 0 (min 100 (classify_score_raw lead conversation s)) ∧
      max 0 (min 100 (classify_score_raw lead conversation s)) ≤ 100
    omega
  · have hraw : classify_score_raw (leadOnlyCity c) emptyConversation defaultSettings = -30 := by
      simp [classify_score_raw, leadOnlyCity, emptyLead, emptyConversation,
        pyTruthyStr, hc_ne, hc_not]
    unfold classify_lead
    rw [hraw]
    decide

/-- Witness for C1 at the concrete uncovered city "Manaus". -/
theorem c1_witness :
    ("Manaus" ≠ "" ∧ "Manaus" ∉ defaultSettings.covered_cities_list) ∧
    classify_lead (leadOnlyCity "Manaus") emptyConversation defaultSettings =
      { classification := "nao_qualificado", score := 0 } :=
  ⟨⟨by decide, by decide⟩,
    (c1_classify_lead_clamp_thresholds_uncovered_city emptyLead emptyConversation
      defaultSettings "Manaus" (by decide) (by decide)).2.2⟩

/-- C2 counterexample: at the claimed input the additive contributions of
`classify_lead` sum to 110, not 120 as the claim states (10+15+15+30+15+10+10+5
equals 110). -/
theorem c2_counterexample :
    classify_score_raw c2_lead c2_conversation defaultSettings = 110 ∧
    ¬ classify_score_raw c2_lead c2_conversation defaultSettings = 120 := by
  decide

/-- C2 amended: the additive point contributions at that input sum to
10+15+15+30+15+10+10+5 = 110 (not 120), which is clamped to a final score
of 100 with classification quente. -/
theorem c2_raw_sum_110_clamped_quente :
    classify_score_raw c2_lead c2_conversation defaultSettings =
      10 + 15 + 15 + 30 + 15 + 10 + 10 + 5 ∧
    classify_lead c2_lead c2_conversation defaultSettings =
      { classification := "quente", score := 100 } := by
  decide

/-- C5: merging AI-extracted data into a Lead fills name/city/state/
prosthesis_type only when the lead field is currently unset (a set value is
never overwritten), always overwrites urgency_level when the AI supplies a
(truthy) value, fills has_insurance only when it is currently NULL, and
leaves every other Lead field unchanged. -/
theorem c5_update_lead_merge_rules (lead : Lead) (e : ExtractedData) :
    (pyTruthyStr lead.name = true →
      (update_lead_with_extracted_data lead e).name = lead.name) ∧
    (pyTruthyStr lead.city = true →
      (update_lead_with_extracted_data lead e).city = lead.city) ∧
    (pyTruthyStr lead.state = true →
      (update_lead_with_extracted_data lead e).state = lead.state) ∧
    (pyTruthyStr lead.prosthesis_type = true →
      (update_lead_with_extracted_data lead e).prosthesis_type = lead.prosthesis_type) ∧
    (pyTruthyStr lead.name = false → pyTruthyStr e.nome = true →
      (update_lead_with_extracted_data lead e).name = e.nome) ∧
    (∀ u : String, e.urgencia = some u → u ≠ "" →
      (update_lead_with_extracted_data lead e).urgency_level = some u) ∧
    (lead.has_insurance ≠ none →
      (update_lead_with_extracted_data lead e).has_insurance = lead.has_insurance) ∧
    (∀ b : Bool, e.possui_convenio = some b → lead.has_insurance = none →
      (update_lead_with_extracted_data lead e).has_insurance = some b) ∧
    (update_lead_with_extracted_data lead e).id = lead.id ∧
    (update_lead_with_extracted_data lead e).phone_number = lead.phone_number ∧
    (update_lead_with_extracted_data lead e).email = lead.email ∧
    (update_lead_with_extracted_data lead e).budget_range = lead.budget_range ∧
    (update_lead_with_extracted_data lead e).has_insurance =
      (match e.possui_convenio, lead.has_insurance with
       | some b, none => some b
       | _, _ => lead.has_insurance) ∧
    (update_lead_with_extracted_data lead e).classification = lead.classification ∧
    (update_lead_with_extracted_data lead e).score = lead.score ∧
    (update_lead_with_extracted_data lead e).status = lead.status ∧
    (update_lead_with_extracted_data lead e).routed_to = lead.routed_to ∧
    (update_lead_with_extracted_data lead e).source = lead.source ∧
    (update_lead_with_extracted_data lead e).campaign_id = lead.campaign_id ∧
    (update_lead_with_extracted_data lead e).utm_source = lead.utm_source ∧
    (update_lead_with_extracted_data lead e).utm_medium = lead.utm_medium ∧
    (update_lead_with_extracted_data lead e).utm_campaign = lead.utm_campaign ∧
    (update_lead_with_extracted_data lead e).first_contact_at = lead.first_contact_at ∧
    (update_lead_with_extracted_data lead e).qualified_at = lead.qualified_at ∧
    (update_lead_with_extracted_data lead e).last_message_at = lead.last_message_at := by
  refine ⟨?_, ?_, ?_, ?_, ?_, ?_, ?_, ?_, rfl, rfl, rfl, rfl, rfl, rfl, rfl, rfl,
    rfl, rfl, rfl, rfl, rfl, rfl, rfl, rfl, rfl⟩
  · intro h; simp [update_lead_with_extracted_data, h]
  · intro h; simp [update_lead_with_extracted_data, h]
  · intro h; simp [update_lead_with_extracted_data, h]
  · intro h; simp [update_lead_with_extracted_data, h]
  · intro h hn; simp [update_lead_with_extracted_data, h, hn]
  · intro u hu hne; simp [update_lead_with_extracted_data, hu, pyTruthyStr, hne]
  · intro h
    cases hpc : e.possui_convenio <;> cases hhi : lead.has_insurance <;>
      simp_all [update_lead_with_extracted_data]
  · intro b hb hn; simp [update_lead_with_extracted_data, hb, hn]

/-- The concrete lead and extraction of C5's examples: a set name is kept,
urgency baixa is overwritten by alta. -/
def c5_lead : Lead :=
  { emptyLead with name := some "Ana", urgency_level := some "baixa" }

/-- AI extraction supplying a different name and a higher urgency. -/
def c5_extracted : ExtractedData :=
  { nome := some "Beatriz", urgencia := some "alta" }

/-- Witness for C5: with name already "Ana" the extracted "Beatriz" does
not overwrite it, while urgency baixa is overwritten by alta. -/
theorem c5_witness :
    pyTruthyStr c5_lead.name = true ∧
    (update_lead_with_extracted_data c5_lead c5_extracted).name = some "Ana" ∧
    (update_lead_with_extracted_data c5_lead c5_extracted).urgency_level = some "alta" ∧
    (update_lead_with_extracted_data c5_lead c5_extracted).email = c5_lead.email := by
  have h := c5_update_lead_merge_rules c5_lead c5_extracted
  refine ⟨by decide, ?_, ?_, ?_⟩
  · exact (h.1 (by decide)).trans (by decide)
  · exact h.2.2.2.2.2.1 "alta" (by decide) (by decide)
  · exact h.2.2.2.2.2.2.2.2.2.2.1

/-- C6: `should_transfer_to_human` is true whenever the AI confidence is
below 0.5 (whatever the lead and conversation), and in general it is true
exactly when at least one of the five criteria holds: urgency emergencia,
classification quente, data complete (name, city, prosthesis_type all
present) with at least 3 user messages, confidence below 0.5, or more than
15 total messages with data collection incomplete. -/
theorem c6_should_transfer_iff (lead : Lead) (conversation : Conversation) (conf : ℚ) :
    (conf < 1/2 → should_transfer_to_human lead conversation conf = true) ∧
    (should_transfer_to_human lead conversation conf = true ↔
      (lead.urgency_level = some "emergencia" ∨
       lead.classification = some "quente" ∨
       (lead.name ≠ none ∧ lead.city ≠ none ∧ lead.prosthesis_type ≠ none ∧
         conversation.user_messages ≥ 3) ∨
       conf < 1/2 ∨
       (conversation.total_messages > 15 ∧ conversation.data_collected_complete = false))) := by
  have hiff : should_transfer_to_human lead conversation conf = true ↔
      (lead.urgency_level = some "emergencia" ∨
       lead.classification = some "quente" ∨
       (lead.name ≠ none ∧ lead.city ≠ none ∧ lead.prosthesis_type ≠ none ∧
         conversation.user_messages ≥ 3) ∨
       conf < 1/2 ∨
       (conversation.total_messages > 15 ∧ conversation.data_collected_complete = false)) := by
    unfold should_transfer_to_human lead_is_data_complete
    split_ifs with h1 h2 h3 h4 h5 <;>
      simp_all [Option.isSome_iff_ne_none]
  exact ⟨fun h => hiff.mpr (Or.inr (Or.inr (Or.inr (Or.inl h)))), hiff⟩

/-- The frio lead of C6's example. -/
def c6_frio_lead : Lead := { emptyLead with classification := some "frio" }

/-- Witness for C6: a frio lead with AI confidence 0.3 is transferred. -/
theorem c6_witness :
    ((3 : ℚ)/10 < 1/2) ∧
    should_transfer_to_human c6_frio_lead emptyConversation (3/10) = true :=
  ⟨by norm_num,
    (c6_should_transfer_iff c6_frio_lead emptyConversation (3/10)).1 (by norm_num)⟩

/-- C7: `send_text_message` rejects empty or whitespace-only text without
sending, truncates text longer than 4096 characters to its first 4090
characters plus "...", and sends text of length at most 4096 unmodified. -/
theorem c7_send_text_message_spec (m : String) :
    (pyStrip m.data = [] → send_text_message m = none) ∧
    (pyStrip m.data ≠ [] → m.length ≤ 4096 → send_text_message m = some m) ∧
    (pyStrip m.data ≠ [] → m.length > 4096 →
      send_text_message m = some (String.mk (m.data.take 4090) ++ "...")) := by
  unfold send_text_message
  have hstrip : pyStrip ("" : String).data = [] := rfl
  refine ⟨fun h => ?_, fun h hle => ?_, fun h hgt => ?_⟩
  · rw [if_pos (Or.inr (by rw [h]; rfl))]
  · have hcond : ¬(m = "" ∨ (pyStrip m.data).length = 0) := by
      rintro (rfl | hl)
      · exact h hstrip
      · exact h (List.length_eq_zero.mp hl)
    rw [if_neg hcond, if_neg (by omega)]
  · have hcond : ¬(m = "" ∨ (pyStrip m.data).length = 0) := by
      rintro (rfl | hl)
      · exact h hstrip
      · exact h (List.length_eq_zero.mp hl)
    rw [if_neg hcond, if_pos hgt]

/-- A 4097-character message for the C7 witness. -/
def c7_long_message : String := String.mk (List.replicate 4097 'a')

/-- Auxiliary: dropping leading whitespace from a block of letters 'a' is a
no-op. -/
theorem dropWhile_whitespace_replicate_a (n : Nat) :
    (List.replicate n 'a').dropWhile Char.isWhitespace = List.replicate n 'a' := by
  cases n with
  | zero => rfl
  | succ m =>
    rw [List.replicate_succ, List.dropWhile_cons]
    simp [show Char.isWhitespace 'a' = false by decide]

/-- Auxiliary: stripping the long message changes nothing. -/
theorem c7_long_message_strip :
    pyStrip c7_long_message.data = List.replicate 4097 'a' := by
  show pyStrip (List.replicate 4097 'a') = _
  unfold pyStrip
  rw [dropWhile_whitespace_replicate_a, List.reverse_replicate,
    dropWhile_whitespace_replicate_a, List.reverse_replicate]

/-- Auxiliary: the long message has 4097 characters. -/
theorem c7_long_message_length : c7_long_message.length = 4097 := by
  show (List.replicate 4097 'a').length = 4097
  rw [List.length_replicate]

/-- Witness for C7 on all three branches: whitespace-only text is rejected,
short text is sent unmodified, and 4097-character text is truncated. -/
theorem c7_witness :
    send_text_message "  " = none ∧
    send_text_message "ola" = some "ola" ∧
    send_text_message c7_long_message =
      some (String.mk (c7_long_message.data.take 4090) ++ "...") :=
  ⟨(c7_send_text_message_spec "  ").1 (by decide),
   (c7_send_text_message_spec "ola").2.1 (by decide) (by decide),
   (c7_send_text_message_spec c7_long_message).2.2
     (by
       rw [c7_long_message_strip]
       intro hnil
       have hlen := congrArg List.length hnil
       rw [List.length_replicate] at hlen
       exact absurd hlen (by norm_num))
     (by rw [c7_long_message_length]; norm_num)⟩

/-- C8: the stats endpoint's conversion rate is 0 when the total lead count
is 0 (the guarded branch, no division is reached), is
round2(qualified/total*100) when total is positive, and equals 40 at
qualified=4, total=10. -/
theorem c8_conversion_rate_spec (qualified total : Nat) :
    get_lead_stats_conversion_rate qualified 0 = 0 ∧
    (0 < total → get_lead_stats_conversion_rate qualified total =
      pyRound2 ((qualified : ℚ) / (total : ℚ) * 100)) ∧
    get_lead_stats_conversion_rate 4 10 = 40 := by
  refine ⟨?_, fun h => ?_, ?_⟩
  · unfold get_lead_stats_conversion_rate pyRound2 roundHalfEven
    norm_num [Int.floor_zero]
  · unfold get_lead_stats_conversion_rate
    rw [if_pos h]
  · have h40 : ((4:ℕ) : ℚ) / ((10:ℕ) : ℚ) * 100 = 40 := by norm_num
    simp only [get_lead_stats_conversion_rate, pyRound2, roundHalfEven]
    rw [if_pos (by norm_num : (10:ℕ) > 0), h40,
      show ((40:ℚ) * 100) = ((4000:ℤ):ℚ) by norm_num, Int.floor_intCast]
    norm_num

/-- Witness for C8 with total = 7 in the positive branch. -/
theorem c8_witness :
    (0 < 7) ∧
    get_lead_stats_conversion_rate 3 7 = pyRound2 ((3 : ℚ) / (7 : ℚ) * 100) := by
  refine ⟨by norm_num, ?_⟩
  have h := (c8_conversion_rate_spec 3 7).2.1 (by norm_num)
  rw [h]
  norm_num

/-- C9: the sliding-window rate limiter never records a denied request:
when `is_allowed` denies (the pruned window already holds max_requests
timestamps) the stored list becomes exactly the pruned old list — every
element of it was already stored, nothing is appended — and only allowed
calls append the current time; the same holds for the per-IP middleware
check with its fixed 60-second window. -/
theorem c9_rate_limiter_denied_not_recorded
    (current_time window : ℚ) (max_requests : Nat) (old : List ℚ) (s : Settings) :
    ((rate_limiter_is_allowed current_time max_requests window (some old)).1 = false →
      (rate_limiter_is_allowed current_time max_requests window (some old)).2 =
        rate_limiter_prune window current_time old ∧
      ∀ t ∈ (rate_limiter_is_allowed current_time max_requests window (some old)).2,
        t ∈ old) ∧
    ((rate_limiter_is_allowed current_time max_requests window (some old)).1 = true →
      (rate_limiter_is_allowed current_time max_requests window (some old)).2 =
        rate_limiter_prune window current_time old ++ [current_time]) ∧
    ((rate_limiter_is_allowed current_time max_requests window (some old)).1 = false ↔
      max_requests ≤ (rate_limiter_prune window current_time old).length) ∧
    ((simple_rate_limiter_check s current_time (some old)).1 = false →
      (simple_rate_limiter_check s current_time (some old)).2 =
        old.filter (fun t => current_time - t < 60) ∧
      ∀ t ∈ (simple_rate_limiter_check s current_time (some old)).2, t ∈ old) := by
  unfold rate_limiter_is_allowed simple_rate_limiter_check
  dsimp only
  constructor
  · intro hd
    by_cases hc : max_requests ≤ (rate_limiter_prune window current_time old).length
    · rw [if_pos hc]
      exact ⟨rfl, fun t ht => (List.mem_filter.mp ht).1⟩
    · rw [if_neg hc] at hd
      exact absurd hd (by simp)
  constructor
  · intro ha
    by_cases hc : max_requests ≤ (rate_limiter_prune window current_time old).length
    · rw [if_pos hc] at ha
      exact absurd ha (by simp)
    · rw [if_neg hc]
  constructor
  · by_cases hc : max_requests ≤ (rate_limiter_prune window current_time old).length
    · rw [if_pos hc]; simpa using hc
    · rw [if_neg hc]; simpa using hc
  · intro hd
    by_cases hc : s.rate_limit_per_minute ≤
        (old.filter (fun t => current_time - t < 60)).length
    · rw [if_pos hc]
      exact ⟨rfl, fun t ht => (List.mem_filter.mp ht).1⟩
    · rw [if_neg hc] at hd
      exact absurd hd (by simp)


/-- A settings record with a per-minute limit of 1, to exercise the
middleware denial branch. -/
def c9_limit1_settings : Settings := { defaultSettings with rate_limit_per_minute := 1 }

/-- Witness for C9: limit 1, one fresh timestamp already inside the window:
the call is denied and the stored list stays [99]; with an empty window the
call is allowed and records 100; the denied middleware check also keeps the
pruned list. -/
theorem c9_witness :
    (rate_limiter_is_allowed 100 1 60 (some [99])).1 = false ∧
    (rate_limiter_is_allowed 100 1 60 (some [99])).2 = [99] ∧
    (rate_limiter_is_allowed 100 1 60 (some [])).2 = [100] ∧
    (simple_rate_limiter_check c9_limit1_settings 100 (some [99])).2 = [99] := by
  have h := c9_rate_limiter_denied_not_recorded 100 60 1 [99] c9_limit1_settings
  have h0 := c9_rate_limiter_denied_not_recorded 100 60 1 [] c9_limit1_settings
  have hfilter : rate_limiter_prune 60 100 [99] = [99] := by
    norm_num [rate_limiter_prune, List.filter]
  have hfs : [(99 : ℚ)].filter (fun t => (100 : ℚ) - t < 60) = [99] := hfilter
  have hfilter0 : rate_limiter_prune 60 100 ([] : List ℚ) = [] := rfl
  have hd : (rate_limiter_is_allowed 100 1 60 (some [99])).1 = false := by
    apply h.2.2.1.mpr
    rw [hfilter]
    norm_num
  have ha : (rate_limiter_is_allowed 100 1 60 (some [])).1 = true := by
    cases hx : (rate_limiter_is_allowed 100 1 60 (some [])).1 with
    | false =>
      exfalso
      have hle := h0.2.2.1.mp hx
      rw [hfilter0] at hle
      norm_num at hle
    | true => rfl
  have hd2 : (simple_rate_limiter_check c9_limit1_settings 100 (some [99])).1 = false := by
    unfold simple_rate_limiter_check
    dsimp only
    rw [hfs, if_pos (by norm_num [c9_limit1_settings, defaultSettings])]
  refine ⟨hd, ?_, ?_, ?_⟩
  · rw [(h.1 hd).1, hfilter]
  · rw [h0.2.1 ha, hfilter0]
    rfl
  · exact ((h.2.2.2 hd2).1).trans hfs

/-- C10 counterexample: with show_last_digits = 0 and a nonempty phone,
Python's `phone[-0:]` is the whole string, so the mask is all-stars
followed by the complete input — twice the input's length, refuting the
claim that the result always has exactly the input's length. -/
theorem c10_counterexample :
    mask_phone_number "5511999887766" 0 = "*************5511999887766" ∧
    (mask_phone_number "5511999887766" 0).length = 26 ∧
    ("5511999887766" : String).length = 13 ∧
    (mask_phone_number "5511999887766" 0).length ≠ ("5511999887766" : String).length := by
  decide

/-- C10 amended: for show_last_digits ≥ 1 the mask has exactly the input's
length — all stars when the input's length is at most show_last_digits,
otherwise stars followed by the input's last show_last_digits characters
unchanged; for show_last_digits = 0 and a nonempty input the result is
length-many stars followed by the entire input (twice the length). -/
theorem c10_mask_phone_number_amended (phone : String) (k : Nat) :
    (1 ≤ k →
      (mask_phone_number phone k).length = phone.length ∧
      (phone.length ≤ k →
        mask_phone_number phone k = String.mk (List.replicate phone.length '*')) ∧
      (k < phone.length →
        mask_phone_number phone k =
          String.mk (List.replicate (phone.length - k) '*') ++
            String.mk (phone.data.drop (phone.length - k)))) ∧
    (k = 0 → phone ≠ "" →
      mask_phone_number phone 0 = String.mk (List.replicate phone.length '*') ++ phone ∧
      (mask_phone_number phone 0).length = 2 * phone.length) := by
  have hdata : phone.data.length = phone.length := rfl
  constructor
  · intro hk
    unfold mask_phone_number pyLastSlice
    by_cases hle : phone.length ≤ k
    · rw [if_pos hle]
      refine ⟨?_, fun _ => rfl, fun hlt => absurd hlt (by omega)⟩
      show (List.replicate phone.length '*').length = phone.length
      rw [List.length_replicate]
    · rw [if_neg hle, if_neg (by omega : ¬k = 0)]
      refine ⟨?_, fun hle2 => absurd hle2 hle, fun _ => rfl⟩
      show (List.replicate (phone.length - k) '*' ++
        phone.data.drop (phone.length - k)).length = phone.length
      rw [List.length_append, List.length_replicate, List.length_drop, hdata]
      omega
  · intro hk0 hne
    subst hk0
    have hlen0 : phone.length ≠ 0 := by
      intro h0
      apply hne
      cases phone with
      | mk d =>
        cases d with
        | nil => rfl
        | cons c cs => simp [String.length] at h0
    unfold mask_phone_number pyLastSlice
    rw [if_neg (by omega : ¬phone.length ≤ 0), if_pos rfl]
    refine ⟨by rw [Nat.sub_zero], ?_⟩
    rw [Nat.sub_zero, String.length_append]
    have hstars : (String.mk (List.replicate phone.length '*')).length = phone.length := by
      show (List.replicate phone.length '*').length = phone.length
      rw [List.length_replicate]
    rw [hstars]
    omega

/-- Witness for C10's amended statement at show_last_digits 4 and 0. -/
theorem c10_witness :
    ((1 ≤ 4) ∧ (mask_phone_number "5511999887766" 4).length =
      ("5511999887766" : String).length) ∧
    (("12345" : String) ≠ "" ∧
      mask_phone_number "12345" 0 =
        String.mk (List.replicate ("12345" : String).length '*') ++ "12345") :=
  ⟨⟨by decide, ((c10_mask_phone_number_amended "5511999887766" 4).1 (by decide)).1⟩,
   ⟨by decide, ((c10_mask_phone_number_amended "12345" 0).2 rfl (by decide)).1⟩⟩

/-- A plausible lowercase HMAC-SHA256 hex digest (64 hex characters). -/
def c4_digest : String :=
  "3f786850e387550fdab836ed7e6dc881de23001b1a1b2cf0e4d61a0a5a0b6e4f"

/-- The same digest in uppercase hex, carried in a sha256= header. -/
def c4_header_upper : String :=
  "sha256=3F786850E387550FDAB836ED7E6DC881DE23001B1A1B2CF0E4D61A0A5A0B6E4F"

/-- C4 counterexample: a header whose value after the sha256= prefix equals
the expected lowercase digest up to letter case is rejected by the code —
`hmac.compare_digest` compares the hex strings exactly, not
case-insensitively as the claim states. -/
theorem c4_counterexample :
    isLowerHex c4_digest = true ∧
    (pySplit "sha256=" c4_header_upper).get? 1 =
      some "3F786850E387550FDAB836ED7E6DC881DE23001B1A1B2CF0E4D61A0A5A0B6E4F" ∧
    hexEqCaseInsensitive
      "3F786850E387550FDAB836ED7E6DC881DE23001B1A1B2CF0E4D61A0A5A0B6E4F"
      c4_digest = true ∧
    verify_whatsapp_signature c4_digest (some c4_header_upper) = false := by
  decide

/-- C4 amended: webhook signature verification succeeds exactly when the
header is present, nonempty, and the second component of splitting it on
"sha256=" equals the recomputed lowercase-hex HMAC digest EXACTLY
(case-sensitively); a request with no signature header is always
rejected.  (The constant-time property of `hmac.compare_digest` is a
timing property outside this embedding.) -/
theorem c4_verify_signature_exact_match (d : String) (h : Option String) :
    (verify_whatsapp_signature d h = true ↔
      ∃ hv : String, h = some hv ∧ hv ≠ "" ∧
        (pySplit "sha256=" hv).get? 1 = some d) ∧
    verify_whatsapp_signature d none = false := by
  refine ⟨?_, rfl⟩
  cases h with
  | none => simp [verify_whatsapp_signature]
  | some hv =>
    unfold verify_whatsapp_signature
    dsimp only
    by_cases he : hv = ""
    · subst he
      simp
    · rw [if_neg he]
      cases hg : (pySplit "sha256=" hv).get? 1 with
      | none =>
        rw [List.get?_eq_getElem?] at hg
        simp [hg, he]
      | some provided =>
        rw [List.get?_eq_getElem?] at hg
        simp [hg, he, beq_iff_eq]

/-- Witness for C4's amended statement: an exactly matching lowercase
header verifies, and a missing header is rejected. -/
theorem c4_witness :
    verify_whatsapp_signature c4_digest (some ("sha256=" ++ c4_digest)) = true ∧
    verify_whatsapp_signature c4_digest none = false :=
  ⟨(c4_verify_signature_exact_match c4_digest (some ("sha256=" ++ c4_digest))).1.mpr
      ⟨"sha256=" ++ c4_digest, rfl, by decide, by decide⟩,
   (c4_verify_signature_exact_match c4_digest none).2⟩

/-- The structured AI response contract used by the orchestrator
(response_text, extracted_data, intent, confidence, transfer flag/reason). -/
structure AiResponse where
  response_text : String
  extracted_data : ExtractedData
  intent : String
  confidence : ℚ
  should_transfer_to_human : Bool
  transfer_reason : Option String

/-- A `Message` row as created by `MessageProcessor._save_message` (the
delivery-callback columns that the orchestrator never touches are
omitted). -/
structure MessageRow where
  conversation_id : String
  direction : String
  message_type : String
  content : String
  whatsapp_message_id : Option String
  ai_model : Option String
  extracted_data : Option ExtractedData
  sent_at : Option Int
deriving DecidableEq

/-- An `Event` row as created by `MessageProcessor._create_event`
(`triggered_by="ai"`; the JSON payload is not modelled). -/
structure EventRow where
  lead_id : String
  event_type : String
  triggered_by : String
deriving DecidableEq

/-- The database state visible to one run of the orchestrator: the resolved
Lead, its resolved active Conversation (steps 1-2 of
`process_inbound_message`), and the Message/Event rows added to the
session. -/
structure ProcState where
  lead : Lead
  conversation : Conversation
  messages : List MessageRow
  events : List EventRow
deriving DecidableEq

/-- The typed errors `process_inbound_message` can raise:
`SessionExpiredError`, `MaxMessagesExceededError`, or a failure inside the
AI step (re-raised after the apologetic message). -/
inductive ProcError where
  | sessionExpired
  | maxMessagesExceeded
  | aiError
deriving DecidableEq

/-- Outcome of one orchestrator run: the raised error if any, the session
state accumulated in memory, and whether the `finally: db.commit()` was
reached (it wraps only steps 5-9; a failure in step 3 propagates before
it). -/
structure ProcOutcome where
  error : Option ProcError
  state : ProcState
  committed : Bool
deriving DecidableEq

/-- The fixed note appended when the AI extracted a city outside the
covered list (step 8 of `process_inbound_message`). -/
def uncovered_city_note (cidade : String) : String :=
  "\n\n⚠️ Nota: Ainda não atendemos " ++ cidade ++
    ". Quer deixar seu contato para futuras expansões?"

/-- `MessageProcessor.process_inbound_message`
(src/domain/services/message_processor.py) from step 3 on, for an already
resolved Lead and active Conversation (steps 1-2).  External effects enter
as parameters: `now` models `datetime.now(UTC)` in seconds, `ai` the AI
client call of step 5 (`Except.error` = any exception there), `waSend` the
platform message id returned by the WhatsApp send (`none` = no "id" in the
response).  Step 3 validates the session before anything is persisted;
step 4 stores the inbound message and bumps counters; steps 6-9 merge,
classify, reply and hand off; the commit flag mirrors the `try/finally`
around steps 5-9. -/
def process_inbound_message
    (now : Int) (content message_type whatsapp_message_id : String)
    (ai : Except Unit AiResponse) (waSend : Option String)
    (s : Settings) (st : ProcState) : ProcOutcome :=
  -- step 3: _validate_session — timeout check
  if now - st.conversation.last_activity_at > s.session_timeout_minutes * 60 then
    { error := some ProcError.sessionExpired
      state := { st with conversation := { st.conversation with status := "expirada" } }
      committed := false }
  -- step 3: _validate_session — message ceiling without progress
  else if st.conversation.total_messages ≥ s.max_messages_without_progress ∧
      ¬st.conversation.data_collected_complete then
    { error := some ProcError.maxMessagesExceeded, state := st, committed := false }
  else
    -- step 4: persist the inbound message, bump counters, touch activity
    let inbound : MessageRow :=
      { conversation_id := st.conversation.id
        direction := "entrada"
        message_type := message_type
        content := content
        whatsapp_message_id := some whatsapp_message_id
        ai_model := none
        extracted_data := none
        sent_at := none }
    let conv1 :=
      { st.conversation with
        total_messages := st.conversation.total_messages + 1
        user_messages := st.conversation.user_messages + 1
        last_activity_at := now }
    let lead1 := { st.lead with last_message_at := some now }
    let st1 : ProcState :=
      { lead := lead1, conversation := conv1
        messages := st.messages ++ [inbound], events := st.events }
    -- steps 5-9 inside try/except/finally
    match ai with
    | Except.error _ =>
      { error := some ProcError.aiError, state := st1, committed := true }
    | Except.ok resp =>
      -- step 6: merge extracted data
      let lead2 := update_lead_with_extracted_data st1.lead resp.extracted_data
      -- step 7: classify, stamp first qualification
      let cls := classify_lead lead2 st1.conversation s
      let lead3 := { lead2 with classification := some cls.classification, score := cls.score }
      let qualifies := lead3.qualified_at = none ∧
        (cls.classification = "quente" ∨ cls.classification = "morno")
      let lead4 :=
        if qualifies then
          { lead3 with qualified_at := some now, status := "qualificado" }
        else lead3
      let events1 :=
        if qualifies then
          st1.events ++
            [{ lead_id := lead3.id, event_type := "classificado", triggered_by := "ai" }]
        else st1.events
      -- step 8: compose the reply (uncovered-city note), persist, send
      let response_text :=
        match resp.extracted_data.cidade with
        | some cidade =>
          if cidade ≠ "" ∧ cidade ∉ s.covered_cities_list then
            resp.response_text ++ uncovered_city_note cidade
          else resp.response_text
        | none => resp.response_text
      let outbound0 : MessageRow :=
        { conversation_id := st1.conversation.id
          direction := "saida"
          message_type := "text"
          content := response_text
          whatsapp_message_id := none
          ai_model := some "deepseek"
          extracted_data := some resp.extracted_data
          sent_at := none }
      let outbound :=
        if s.whatsapp_access_token ≠ "" ∧ pyStrip s.whatsapp_access_token.data ≠ [] then
          match waSend with
          | some waId => { outbound0 with whatsapp_message_id := some waId, sent_at := some now }
          | none => outbound0
        else
          -- token not configured: virtual send
          { outbound0 with sent_at := some now }
      let conv2 :=
        { conv1 with
          total_messages := conv1.total_messages + 1
          ai_messages := conv1.ai_messages + 1 }
      -- step 9: handoff when the AI flagged transfer
      if resp.should_transfer_to_human then
        let conv3 :=
          { conv2 with
            status := "transferida"
            transferred_to_human := true
            ended_at := some now }
        let lead5 :=
          { lead4 with
            status := "transferido"
            routed_to := some (determine_routing lead4) }
        let events2 := events1 ++
          [{ lead_id := lead4.id, event_type := "transferido", triggered_by := "ai" }]
        { error := none
          state :=
            { lead := lead5, conversation := conv3
              messages := st1.messages ++ [outbound]
              events := events2 }
          committed := true }
      else
        { error := none
          state :=
            { lead := lead4, conversation := conv2
              messages := st1.messages ++ [outbound], events := events1 }
          committed := true }

/-- C3: when the Conversation's last activity is older than the configured
session timeout, the next inbound message marks the Conversation expirada
and the run aborts with the session-expired error before the inbound
message is persisted: no Message row is created in that run (the message
list is exactly the old one) and the commit point is never reached. -/
theorem c3_session_timeout_aborts_before_persist
    (now : Int) (content message_type whatsapp_message_id : String)
    (ai : Except Unit AiResponse) (waSend : Option String)
    (s : Settings) (st : ProcState)
    (hexpired : now - st.conversation.last_activity_at > s.session_timeout_minutes * 60) :
    process_inbound_message now content message_type whatsapp_message_id ai waSend s st =
      { error := some ProcError.sessionExpired
        state := { st with conversation := { st.conversation with status := "expirada" } }
        committed := false } ∧
    (process_inbound_message now content message_type whatsapp_message_id
      ai waSend s st).state.messages = st.messages := by
  unfold process_inbound_message
  rw [if_pos hexpired]
  exact ⟨rfl, rfl⟩

/-- Stale state for the C3 witness: last activity at time 0, next message
at time 1801 s — more than the default 30-minute timeout later. -/
def c3_stale_state : ProcState :=
  { lead := emptyLead
    conversation := emptyConversation
    messages := []
    events := [] }

/-- Witness for C3 at the default 30-minute timeout. -/
theorem c3_witness :
    ((1801 : Int) - c3_stale_state.conversation.last_activity_at >
      defaultSettings.session_timeout_minutes * 60) ∧
    process_inbound_message 1801 "quero uma protese" "text" "wamid.1"
      (Except.error ()) none defaultSettings c3_stale_state =
      { error := some ProcError.sessionExpired
        state :=
          { c3_stale_state with
            conversation := { c3_stale_state.conversation with status := "expirada" } }
        committed := false } :=
  ⟨by decide,
   (c3_session_timeout_aborts_before_persist 1801 "quero uma protese" "text" "wamid.1"
      (Except.error ()) none defaultSettings c3_stale_state (by decide)).1⟩
